import Mathlib

/-
  Verification of the climate-risk stress-test dashboard (src/app.py).

  The program is a straight-line computation over a tabular portfolio:
  a generator builds (or loads from a flat CSV cache) a table of synthetic
  loans joined with per-district climate-risk factors, and a stress engine
  adds derived columns (stressed value, stressed loan-to-value, stressed
  default probability, risk status) per row for a user-selected severity.

  The embedding below models rows as structures over the rationals
  (the Python arithmetic is plain real arithmetic over exactly
  representable decimal constants), the random draws of the generator as
  an explicit stream of draw records, the CSV cache as an optional file
  state that is either well-formed (holding a table) or malformed, and
  np.select as a first-match selection over boolean condition lists.
-/

namespace ClimateRisk

/-- One row of the static district risk table `risk_data` in app.py. -/
structure DistrictRisk where
  District : String
  Flood_Risk : ℚ
  Heat_Risk : ℚ
  Lat : ℚ
  Lon : ℚ
deriving DecidableEq, Repr

/-- The fixed reference data `risk_data` (app.py lines 12-18), columns
transposed into records. -/
def risk_data : List DistrictRisk :=
  [⟨"Mumbai Suburban", 9/10, 1/2, 1907/100, 7287/100⟩,
   ⟨"Bengaluru Urban", 3/4, 9/20, 1297/100, 7759/100⟩,
   ⟨"Chennai", 19/20, 7/10, 1308/100, 8027/100⟩,
   ⟨"Jaipur", 1/5, 49/50, 2691/100, 7578/100⟩,
   ⟨"Patna", 9/10, 4/5, 2559/100, 8513/100⟩,
   ⟨"Gurugram", 3/10, 22/25, 2845/100, 7702/100⟩,
   ⟨"Hyderabad", 3/5, 17/20, 1738/100, 7848/100⟩,
   ⟨"Kolkata", 17/20, 3/5, 2257/100, 8836/100⟩]

/-- The district name list `risk_data['District']` from which
`np.random.choice` draws. -/
def districtNames : List String := risk_data.map DistrictRisk.District

/-- One row of the joined portfolio table `df_final` (loan columns merged
with the district risk columns on `District`). -/
structure PortfolioRow where
  Loan_ID : ℕ
  Customer_Name : String
  District : String
  Property_Value : ℚ
  Loan_Amount : ℚ
  Base_PD : ℚ
  Flood_Risk : ℚ
  Heat_Risk : ℚ
  Lat : ℚ
  Lon : ℚ
deriving DecidableEq, Repr

/-- app.py line 73: `df['Stressed_Value'] =
df['Property_Value'] * (1 - (df['Flood_Risk'] * severity))`. -/
def Stressed_Value (r : PortfolioRow) (severity : ℚ) : ℚ :=
  r.Property_Value * (1 - r.Flood_Risk * severity)

/-- app.py line 74: `df['Stressed_LTV'] =
df['Loan_Amount'] / df['Stressed_Value']`. -/
def Stressed_LTV (r : PortfolioRow) (severity : ℚ) : ℚ :=
  r.Loan_Amount / Stressed_Value r severity

/-- app.py line 77: `df['Stressed_PD'] =
df['Base_PD'] * (1 + (df['Heat_Risk'] * severity * 10))`. -/
def Stressed_PD (r : PortfolioRow) (severity : ℚ) : ℚ :=
  r.Base_PD * (1 + r.Heat_Risk * severity * 10)

/-- `np.select conds choices default` row-wise: the choice of the first
condition that holds, else the default (app.py line 86). -/
def npSelect : List Bool → List String → String → String
  | true :: _, c :: _, _ => c
  | false :: conds, _ :: choices, d => npSelect conds choices d
  | _, _, d => d

/-- app.py lines 80-86: the condition list (critical first, safe second)
passed to `np.select` with choices `['CRITICAL', 'SAFE']` and
`default='SAFE'`. -/
def Risk_Status (r : PortfolioRow) (severity : ℚ) : String :=
  npSelect
    [decide (Stressed_LTV r severity > 9/10) || decide (Stressed_PD r severity > 3/20),
     decide (Stressed_LTV r severity ≤ 9/10) && decide (Stressed_PD r severity ≤ 3/20)]
    ["CRITICAL", "SAFE"] "SAFE"

/-- The selection collapses to a two-way conditional: the two condition
rows of app.py lines 80-83 are complementary over the rationals. -/
lemma Risk_Status_eq_ite (r : PortfolioRow) (s : ℚ) :
    Risk_Status r s =
      if Stressed_LTV r s > 9/10 ∨ Stressed_PD r s > 3/20 then "CRITICAL" else "SAFE" := by
  unfold Risk_Status
  by_cases h1 : Stressed_LTV r s > 9/10 <;> by_cases h2 : Stressed_PD r s > 3/20 <;>
    simp [npSelect, h1, h2, le_of_not_lt]

lemma Risk_Status_critical_iff (r : PortfolioRow) (s : ℚ) :
    Risk_Status r s = "CRITICAL" ↔ (Stressed_LTV r s > 9/10 ∨ Stressed_PD r s > 3/20) := by
  rw [Risk_Status_eq_ite]
  by_cases h : Stressed_LTV r s > 9/10 ∨ Stressed_PD r s > 3/20 <;> simp [h]

lemma Risk_Status_safe_iff (r : PortfolioRow) (s : ℚ) :
    Risk_Status r s = "SAFE" ↔ ¬(Stressed_LTV r s > 9/10 ∨ Stressed_PD r s > 3/20) := by
  rw [Risk_Status_eq_ite]
  by_cases h : Stressed_LTV r s > 9/10 ∨ Stressed_PD r s > 3/20 <;> simp [h]

/-- Claim C1: for every portfolio row and every severity, the computed
risk status is CRITICAL iff stressed LTV > 0.90 or stressed PD > 0.15,
SAFE otherwise, and no third state exists (the np.select default is
SAFE, so any row matching neither explicit condition is SAFE). -/
theorem risk_status_critical_iff_safe_otherwise (r : PortfolioRow) (s : ℚ) :
    (Risk_Status r s = "CRITICAL" ↔ (Stressed_LTV r s > 9/10 ∨ Stressed_PD r s > 3/20)) ∧
    (Risk_Status r s = "SAFE" ↔ ¬(Stressed_LTV r s > 9/10 ∨ Stressed_PD r s > 3/20)) ∧
    (Risk_Status r s = "CRITICAL" ∨ Risk_Status r s = "SAFE") := by
  refine ⟨Risk_Status_critical_iff r s, Risk_Status_safe_iff r s, ?_⟩
  rw [Risk_Status_eq_ite]
  by_cases h : Stressed_LTV r s > 9/10 ∨ Stressed_PD r s > 3/20 <;> simp [h]

/-- A concrete row realising the first scenario example of the spec:
property value 1,000,000 in a district with flood risk 0.90. -/
def exampleRowFlood : PortfolioRow :=
  ⟨10001, "Cust_1", "Mumbai Suburban", 1000000, 700000, 1/50, 9/10, 1/2, 1907/100, 7287/100⟩

/-- A concrete row realising the second scenario example of the spec:
base default probability 0.02 in a district with heat risk 0.80. -/
def exampleRowHeat : PortfolioRow :=
  ⟨10002, "Cust_2", "Patna", 5000000, 3500000, 1/50, 9/10, 4/5, 2559/100, 8513/100⟩

/-- Claim C2: the stress engine computes
stressed value = property value × (1 − flood risk × severity),
stressed LTV = loan amount / stressed value, and
stressed PD = base PD × (1 + heat risk × severity × 10); at property
value 1,000,000, flood risk 0.90, severity 0.50 the stressed value is
550,000, and at base PD 0.02, heat risk 0.80, severity 0.50 the
stressed PD is 0.10. -/
theorem stress_formulas_and_scenario_examples :
    (∀ (r : PortfolioRow) (s : ℚ),
        Stressed_Value r s = r.Property_Value * (1 - r.Flood_Risk * s) ∧
        Stressed_LTV r s = r.Loan_Amount / Stressed_Value r s ∧
        Stressed_PD r s = r.Base_PD * (1 + r.Heat_Risk * s * 10)) ∧
    Stressed_Value exampleRowFlood (1/2) = 550000 ∧
    Stressed_PD exampleRowHeat (1/2) = 1/10 := by
  refine ⟨fun r s => ⟨rfl, rfl, rfl⟩, ?_, ?_⟩ <;>
    simp [Stressed_Value, Stressed_PD, exampleRowFlood, exampleRowHeat] <;> norm_num

/-- Claim C3: for severity in {0.15, 0.30, 0.50}, positive property value
and flood risk in [0,1], the stressed value is strictly positive; the
failure case stressed value ≤ 0 forces flood risk × severity ≥ 1, which
is unreachable under those preconditions. -/
theorem stressed_value_pos_and_failure_unreachable (r : PortfolioRow) (s : ℚ) :
    ((s = 3/20 ∨ s = 3/10 ∨ s = 1/2) → 0 < r.Property_Value →
      0 ≤ r.Flood_Risk → r.Flood_Risk ≤ 1 → 0 < Stressed_Value r s) ∧
    (0 < r.Property_Value → Stressed_Value r s ≤ 0 → 1 ≤ r.Flood_Risk * s) := by
  constructor
  · intro hs hpv hf0 hf1
    unfold Stressed_Value
    have hs2 : s ≤ 1/2 := by rcases hs with h | h | h <;> rw [h] <;> norm_num
    have hs0 : 0 ≤ s := by rcases hs with h | h | h <;> rw [h] <;> norm_num
    have : r.Flood_Risk * s ≤ 1/2 := by nlinarith
    nlinarith
  · intro hpv hle
    unfold Stressed_Value at hle
    nlinarith

/-- Witness for C3 at the Mumbai Suburban example row and severity 0.50:
the hypotheses hold concretely and the stressed value is positive. -/
theorem stressed_value_pos_witness :
    0 < Stressed_Value exampleRowFlood (1/2) :=
  (stressed_value_pos_and_failure_unreachable exampleRowFlood (1/2)).1
    (Or.inr (Or.inr rfl)) (by norm_num [exampleRowFlood])
    (by norm_num [exampleRowFlood]) (by norm_num [exampleRowFlood])

/-- One loan row of `df_loans` before the merge (app.py lines 33-40).
`Property_Value` and `Loan_Amount` are integers in the source (`randint`
times 100000, and `int(...)`). -/
structure LoanRow where
  Loan_ID : ℕ
  Customer_Name : String
  District : String
  Property_Value : ℕ
  Loan_Amount : ℕ
  Base_PD : ℚ
deriving DecidableEq, Repr

/-- The values returned by the random calls made for one loan of the
generation loop (app.py lines 23-40). `districtIdx` is the index
`np.random.choice` picks into `risk_data['District']`; `metroVal` and
`otherVal` are what `np.random.randint(80, 250)` resp.
`np.random.randint(30, 90)` would return; `loanFrac` is
`np.random.uniform(0.6, 0.85)`; `loanIdDraw` is
`np.random.randint(10000, 99999)`; `custDraw` is
`np.random.randint(1, 999)`; `basePdDraw` is
`np.random.uniform(0.01, 0.05)`. -/
structure LoanDraw where
  districtIdx : Fin 8
  metroVal : ℕ
  otherVal : ℕ
  loanFrac : ℚ
  loanIdDraw : ℕ
  custDraw : ℕ
  basePdDraw : ℚ
deriving DecidableEq, Repr

/-- The ranges numpy guarantees for the draws: `randint(a, b)` lies in
[a, b) and `uniform(a, b)` lies in [a, b]. -/
def LoanDraw.InRange (d : LoanDraw) : Prop :=
  80 ≤ d.metroVal ∧ d.metroVal < 250 ∧
  30 ≤ d.otherVal ∧ d.otherVal < 90 ∧
  3/5 ≤ d.loanFrac ∧ d.loanFrac ≤ 17/20 ∧
  1/100 ≤ d.basePdDraw ∧ d.basePdDraw ≤ 1/20

instance (d : LoanDraw) : Decidable d.InRange := by
  unfold LoanDraw.InRange; infer_instance

/-- The district `np.random.choice(risk_data['District'])` returns for a
drawn index. -/
def pickDistrict (i : Fin 8) : String := districtNames.getD i.val ""

/-- The body of the generation loop (app.py lines 24-40) for one draw
record: tier-dependent property value, truncated loan amount, and the
remaining fields straight from the draws. -/
def mkLoan (d : LoanDraw) : LoanRow :=
  let district := pickDistrict d.districtIdx
  let prop_val : ℕ :=
    if district = "Mumbai Suburban" ∨ district = "Gurugram" then d.metroVal * 100000
    else d.otherVal * 100000
  let loan_amt : ℕ := (((prop_val : ℚ) * d.loanFrac).floor).toNat
  { Loan_ID := d.loanIdDraw
    Customer_Name := "Cust_" ++ toString d.custDraw
    District := district
    Property_Value := prop_val
    Loan_Amount := loan_amt
    Base_PD := d.basePdDraw }

/-- `df_loans` (app.py lines 22-41): the loop appends 200 loans, one per
iteration, each built from that iteration's random draws (modelled as a
stream `g`). -/
def df_loans (g : ℕ → LoanDraw) : List LoanRow :=
  (List.range 200).map (fun i => mkLoan (g i))

/-- `pd.merge(df_loans, df_risk, on='District')` restricted to one left
row: the unique matching risk row, when one exists, appended to the loan
columns. -/
def mergeRow (l : LoanRow) : Option PortfolioRow :=
  (risk_data.find? (fun r => r.District = l.District)).map (fun r =>
    { Loan_ID := l.Loan_ID
      Customer_Name := l.Customer_Name
      District := l.District
      Property_Value := (l.Property_Value : ℚ)
      Loan_Amount := (l.Loan_Amount : ℚ)
      Base_PD := l.Base_PD
      Flood_Risk := r.Flood_Risk
      Heat_Risk := r.Heat_Risk
      Lat := r.Lat
      Lon := r.Lon })

/-- `pd.merge(df_loans, df_risk, on='District')` (app.py line 44): inner
join preserving left order; right keys are unique so each left row
yields at most one joined row. -/
def merge (loans : List LoanRow) : List PortfolioRow :=
  loans.filterMap mergeRow

/-- `df_final` on the generation path (app.py lines 22-44). -/
def df_final (g : ℕ → LoanDraw) : List PortfolioRow :=
  merge (df_loans g)

/-- The state of `realistic_loan_book.csv`: either a well-formed cache
holding a portfolio table, or a malformed file. -/
inductive CacheFile where
  | wellFormed : List PortfolioRow → CacheFile
  | malformed : CacheFile
deriving DecidableEq

/-- `pd.read_csv('realistic_loan_book.csv')` (app.py line 48): returns
the stored table from a well-formed file and raises on a malformed one
(the failure is not caught anywhere in app.py). -/
def read_csv : CacheFile → Except Unit (List PortfolioRow)
  | .wellFormed t => .ok t
  | .malformed => .error ()

/-- `generate_data` (app.py lines 9-48) over an explicit file-system
state (`none` = the cache file does not exist). If the file does not
exist the portfolio is generated, written to the cache and returned;
otherwise the file is read. Returns the result (a raised exception is
`.error`) together with the file state afterwards. -/
def generate_data (cache : Option CacheFile) (g : ℕ → LoanDraw) :
    Except Unit (List PortfolioRow) × Option CacheFile :=
  match cache with
  | none => (.ok (df_final g), some (.wellFormed (df_final g)))
  | some f => (read_csv f, some f)

/-- Claim C4: with a well-formed cache present, the generator returns the
previously cached table unchanged and leaves the cache as it is, so two
successive calls (with any random streams) both return that same table:
regeneration is idempotent once cached. -/
theorem generate_data_cached_idempotent (t : List PortfolioRow)
    (g1 g2 : ℕ → LoanDraw) :
    (generate_data (some (.wellFormed t)) g1).1 = .ok t ∧
    (generate_data (some (.wellFormed t)) g1).2 = some (.wellFormed t) ∧
    (generate_data (generate_data (some (.wellFormed t)) g1).2 g2).1 =
      (generate_data (some (.wellFormed t)) g1).1 := by
  exact ⟨rfl, rfl, rfl⟩

/-- Claim C5 counterexample: with a malformed cache file present, the
generator does not regenerate — the read raises and the exception
propagates, so the result is an error, not the freshly generated table
(here at the constant draw stream of `defaultDraw`). -/
def defaultDraw : LoanDraw := ⟨0, 100, 50, 7/10, 10001, 1, 1/50⟩

theorem malformed_cache_fails_not_regenerates :
    (generate_data (some .malformed) (fun _ => defaultDraw)).1 = .error () ∧
    (generate_data (some .malformed) (fun _ => defaultDraw)).1 ≠
      .ok (df_final (fun _ => defaultDraw)) := by
  exact ⟨rfl, by simp [generate_data, read_csv]⟩

/-- Claim C5 (amended): a missing cache file causes regeneration, and on
the regeneration path the freshly generated table is returned; a
malformed existing file does not trigger regeneration (its read failure
is unhandled, per the counterexample). -/
theorem missing_cache_regenerates (g : ℕ → LoanDraw) :
    (generate_data none g).1 = .ok (df_final g) ∧
    (generate_data none g).2 = some (.wellFormed (df_final g)) :=
  ⟨rfl, rfl⟩

lemma pickDistrict_mem (i : Fin 8) : pickDistrict i ∈ districtNames := by
  fin_cases i <;> decide

/-- Bounds on the truncated loan amount `int(prop_val * uniform(0.6, 0.85))`:
because the property value is a multiple of 100000, its 0.6 multiple is an
integer, so truncation cannot fall below it; truncation never exceeds the
value truncated. -/
lemma loan_amt_bounds (v : ℕ) (frac : ℚ) (hv : 0 < v)
    (hf1 : 3/5 ≤ frac) (hf2 : frac ≤ 17/20) :
    ((v * 100000 : ℕ) : ℚ) * (3/5) ≤ ((((v * 100000 : ℕ) : ℚ) * frac).floor.toNat : ℚ) ∧
    ((((v * 100000 : ℕ) : ℚ) * frac).floor.toNat : ℚ) ≤ ((v * 100000 : ℕ) : ℚ) * (17/20) := by
  have hpvq : (0 : ℚ) < ((v * 100000 : ℕ) : ℚ) := by
    exact_mod_cast Nat.mul_pos hv (by norm_num)
  have hq0 : (0 : ℚ) ≤ ((v * 100000 : ℕ) : ℚ) * frac :=
    mul_nonneg hpvq.le (le_trans (by norm_num) hf1)
  have hfloor0 : (0 : ℤ) ≤ (((v * 100000 : ℕ) : ℚ) * frac).floor :=
    Int.floor_nonneg.mpr hq0
  have hcast : (((((v * 100000 : ℕ) : ℚ) * frac).floor.toNat : ℕ) : ℚ) =
      (((((v * 100000 : ℕ) : ℚ) * frac).floor : ℤ) : ℚ) := by
    exact_mod_cast congrArg (fun z : ℤ => (z : ℚ)) (Int.toNat_of_nonneg hfloor0)
  constructor
  · rw [hcast]
    have hlow : (((60000 * v : ℕ) : ℤ) : ℚ) ≤ ((v * 100000 : ℕ) : ℚ) * frac := by
      have h1 : (((60000 * v : ℕ) : ℤ) : ℚ) = ((v * 100000 : ℕ) : ℚ) * (3/5) := by
        push_cast; ring
      rw [h1]
      exact mul_le_mul_of_nonneg_left hf1 hpvq.le
    have := Int.le_floor.mpr hlow
    calc ((v * 100000 : ℕ) : ℚ) * (3/5) = (((60000 * v : ℕ) : ℤ) : ℚ) := by push_cast; ring
      _ ≤ ((((v * 100000 : ℕ) : ℚ) * frac).floor : ℚ) := by exact_mod_cast this
  · rw [hcast]
    calc ((((v * 100000 : ℕ) : ℚ) * frac).floor : ℚ) ≤ ((v * 100000 : ℕ) : ℚ) * frac :=
          Int.floor_le _
      _ ≤ ((v * 100000 : ℕ) : ℚ) * (17/20) := mul_le_mul_of_nonneg_left hf2 hpvq.le

/-- Everything one generation-loop iteration guarantees about the loan it
appends, given that numpy's draws lie in their documented ranges. -/
lemma mkLoan_spec (d : LoanDraw) (hd : d.InRange) :
    (mkLoan d).District ∈ districtNames ∧
    ((mkLoan d).District = "Mumbai Suburban" ∨ (mkLoan d).District = "Gurugram" →
      8000000 ≤ (mkLoan d).Property_Value ∧ (mkLoan d).Property_Value < 25000000) ∧
    (¬((mkLoan d).District = "Mumbai Suburban" ∨ (mkLoan d).District = "Gurugram") →
      3000000 ≤ (mkLoan d).Property_Value ∧ (mkLoan d).Property_Value < 9000000) ∧
    0 < (mkLoan d).Property_Value ∧
    (∃ f : ℚ, 3/5 ≤ f ∧ f ≤ 17/20 ∧
      ((mkLoan d).Loan_Amount : ℚ) = ((mkLoan d).Property_Value : ℚ) * f) ∧
    (mkLoan d).Loan_Amount ≤ (mkLoan d).Property_Value ∧
    1/100 ≤ (mkLoan d).Base_PD ∧ (mkLoan d).Base_PD ≤ 1/20 ∧
    0 < (mkLoan d).Base_PD ∧ (mkLoan d).Base_PD < 1 := by
  obtain ⟨h80, h250, h30, h90, hfr1, hfr2, hpd1, hpd2⟩ := hd
  by_cases hm : pickDistrict d.districtIdx = "Mumbai Suburban" ∨
      pickDistrict d.districtIdx = "Gurugram" <;>
    simp only [mkLoan, hm, if_pos, if_neg, not_false_iff, or_self, ite_true, ite_false] <;>
    [(have hb := loan_amt_bounds d.metroVal d.loanFrac (by omega) hfr1 hfr2;
      set v := d.metroVal with hv);
     (have hb := loan_amt_bounds d.otherVal d.loanFrac (by omega) hfr1 hfr2;
      set v := d.otherVal with hv)] <;>
  · obtain ⟨hbl, hbu⟩ := hb
    have hpvq : (0 : ℚ) < ((v * 100000 : ℕ) : ℚ) := by
      have : 0 < v * 100000 := by omega
      exact_mod_cast this
    refine ⟨pickDistrict_mem d.districtIdx, ?_, ?_, by omega, ?_, ?_, hpd1, hpd2,
      lt_of_lt_of_le (by norm_num) hpd1, lt_of_le_of_lt hpd2 (by norm_num)⟩
    · intro h
      first
      | omega
      | exact h.elim
      | exact absurd trivial h
    · intro h
      first
      | omega
      | exact h.elim
      | exact absurd trivial h
    · refine ⟨((((v * 100000 : ℕ) : ℚ) * d.loanFrac).floor.toNat : ℚ) /
        ((v * 100000 : ℕ) : ℚ), ?_, ?_, ?_⟩
      · rw [le_div_iff hpvq]
        calc (3/5 : ℚ) * ((v * 100000 : ℕ) : ℚ) = ((v * 100000 : ℕ) : ℚ) * (3/5) := by ring
          _ ≤ _ := hbl
      · rw [div_le_iff hpvq]
        calc ((((v * 100000 : ℕ) : ℚ) * d.loanFrac).floor.toNat : ℚ)
            ≤ ((v * 100000 : ℕ) : ℚ) * (17/20) := hbu
          _ = 17/20 * ((v * 100000 : ℕ) : ℚ) := by ring
      · field_simp
    · have : ((((v * 100000 : ℕ) : ℚ) * d.loanFrac).floor.toNat : ℚ) ≤
          ((v * 100000 : ℕ) : ℚ) :=
        le_trans hbu (by nlinarith)
      exact_mod_cast this

/-- Claim C6: with no cache, the generator produces exactly 200 loans;
every loan's district comes from the fixed reference list; metro
districts (Mumbai Suburban, Gurugram) draw property values from the
higher range [8,000,000, 25,000,000) and all others from
[3,000,000, 9,000,000); the loan amount equals the property value times
a fraction in [0.6, 0.85] (hence loan amount ≤ property value); and the
base default probability lies in [0.01, 0.05] ⊆ (0,1). -/
theorem generated_portfolio_well_formed (g : ℕ → LoanDraw)
    (hg : ∀ i, (g i).InRange) :
    (df_loans g).length = 200 ∧
    ∀ l ∈ df_loans g,
      l.District ∈ districtNames ∧
      (l.District = "Mumbai Suburban" ∨ l.District = "Gurugram" →
        8000000 ≤ l.Property_Value ∧ l.Property_Value < 25000000) ∧
      (¬(l.District = "Mumbai Suburban" ∨ l.District = "Gurugram") →
        3000000 ≤ l.Property_Value ∧ l.Property_Value < 9000000) ∧
      0 < l.Property_Value ∧
      (∃ f : ℚ, 3/5 ≤ f ∧ f ≤ 17/20 ∧
        (l.Loan_Amount : ℚ) = (l.Property_Value : ℚ) * f) ∧
      l.Loan_Amount ≤ l.Property_Value ∧
      1/100 ≤ l.Base_PD ∧ l.Base_PD ≤ 1/20 ∧
      0 < l.Base_PD ∧ l.Base_PD < 1 := by
  refine ⟨by simp [df_loans], ?_⟩
  intro l hl
  simp only [df_loans, List.mem_map, List.mem_range] at hl
  obtain ⟨i, _, rfl⟩ := hl
  exact mkLoan_spec (g i) (hg i)

lemma defaultDraw_inRange : defaultDraw.InRange := by
  unfold LoanDraw.InRange defaultDraw; norm_num

/-- Witness for C6: the constant stream of `defaultDraw` is in range and
yields a 200-row loan table. -/
theorem generated_portfolio_well_formed_witness :
    (df_loans (fun _ => defaultDraw)).length = 200 :=
  (generated_portfolio_well_formed (fun _ => defaultDraw)
    (fun _ => defaultDraw_inRange)).1

/-- `risky_loans = df[df['Risk_Status'] == 'CRITICAL']` (app.py line 94). -/
def risky_loans (rows : List PortfolioRow) (severity : ℚ) : List PortfolioRow :=
  rows.filter (fun r => Risk_Status r severity = "CRITICAL")

/-- `capital_at_risk = risky_loans['Loan_Amount'].sum() / 10000000`
(app.py line 95). -/
def capital_at_risk (rows : List PortfolioRow) (severity : ℚ) : ℚ :=
  ((risky_loans rows severity).map PortfolioRow.Loan_Amount).sum / 10000000

/-- Claim C7: the Capital at Risk metric is the sum of loan amounts over
exactly the rows whose stress outcome is critical (stressed LTV > 0.90
or stressed PD > 0.15, equivalently risk status CRITICAL), divided by
10,000,000. -/
theorem capital_at_risk_eq_critical_sum (rows : List PortfolioRow) (s : ℚ) :
    capital_at_risk rows s =
      ((rows.filter (fun r =>
          decide (Stressed_LTV r s > 9/10 ∨ Stressed_PD r s > 3/20))).map
        PortfolioRow.Loan_Amount).sum / 10000000 ∧
    capital_at_risk rows s * 10000000 =
      ((rows.filter (fun r => Risk_Status r s = "CRITICAL")).map
        PortfolioRow.Loan_Amount).sum := by
  have hfil : rows.filter (fun r => Risk_Status r s = "CRITICAL") =
      rows.filter (fun r => decide (Stressed_LTV r s > 9/10 ∨ Stressed_PD r s > 3/20)) := by
    apply List.filter_congr
    intro x _
    simp only [decide_eq_decide]
    exact Risk_Status_critical_iff x s
  constructor
  · unfold capital_at_risk risky_loans
    rw [hfil]
  · unfold capital_at_risk risky_loans
    rw [div_mul_cancel₀ _ (by norm_num : (10000000 : ℚ) ≠ 0)]

/-- Claim C8: the stressed value depends only on the property value, the
flood risk and the severity, and the stressed default probability only
on the base default probability, the heat risk and the severity: two
runs agreeing on those fields produce identical outputs, whatever the
other fields hold — there is no hidden state. -/
theorem stress_engine_pure (r1 r2 : PortfolioRow) (s1 s2 : ℚ) :
    (s1 = s2 → r1.Property_Value = r2.Property_Value →
      r1.Flood_Risk = r2.Flood_Risk → Stressed_Value r1 s1 = Stressed_Value r2 s2) ∧
    (s1 = s2 → r1.Base_PD = r2.Base_PD →
      r1.Heat_Risk = r2.Heat_Risk → Stressed_PD r1 s1 = Stressed_PD r2 s2) := by
  constructor <;>
    (intro hs h1 h2; simp only [Stressed_Value, Stressed_PD]; rw [hs, h1, h2])

/-- A row agreeing with `exampleRowFlood` only on property value and
flood risk. -/
def exampleRowFloodTwin : PortfolioRow :=
  ⟨77777, "Cust_777", "Patna", 1000000, 123, 1/25, 9/10, 49/50, 0, 0⟩

/-- A row agreeing with `exampleRowHeat` only on base default probability
and heat risk. -/
def exampleRowHeatTwin : PortfolioRow :=
  ⟨88888, "Cust_888", "Chennai", 42, 77, 1/50, 1/5, 4/5, 1, 1⟩

/-- Witness for C8: rows differing in every field except the ones the
formulas read produce the same stressed value resp. stressed PD. -/
theorem stress_engine_pure_witness :
    Stressed_Value exampleRowFlood (3/10) = Stressed_Value exampleRowFloodTwin (3/10) ∧
    Stressed_PD exampleRowHeat (3/10) = Stressed_PD exampleRowHeatTwin (3/10) :=
  ⟨(stress_engine_pure exampleRowFlood exampleRowFloodTwin (3/10) (3/10)).1 rfl rfl rfl,
   (stress_engine_pure exampleRowHeat exampleRowHeatTwin (3/10) (3/10)).2 rfl rfl rfl⟩

/-- Claim C9 (implicit): for a loan with flood and heat risk in [0,1],
positive property value, nonnegative loan amount and base PD, both
stressed LTV and stressed PD are monotone non-decreasing in severity
over [0, 0.5]; hence a loan CRITICAL at a lower severity stays CRITICAL
at every higher severity (in particular across 0.15 ≤ 0.30 ≤ 0.50). -/
theorem stress_monotone_in_severity (r : PortfolioRow) (s1 s2 : ℚ)
    (hf0 : 0 ≤ r.Flood_Risk) (hf1 : r.Flood_Risk ≤ 1)
    (hh0 : 0 ≤ r.Heat_Risk)
    (hpv : 0 < r.Property_Value) (hla : 0 ≤ r.Loan_Amount) (hpd : 0 ≤ r.Base_PD)
    (hs0 : 0 ≤ s1) (hs12 : s1 ≤ s2) (hs2 : s2 ≤ 1/2) :
    Stressed_LTV r s1 ≤ Stressed_LTV r s2 ∧
    Stressed_PD r s1 ≤ Stressed_PD r s2 ∧
    (Risk_Status r s1 = "CRITICAL" → Risk_Status r s2 = "CRITICAL") := by
  have hs20 : 0 ≤ s2 := le_trans hs0 hs12
  have hv2 : 0 < Stressed_Value r s2 := by
    unfold Stressed_Value
    have h1 : r.Flood_Risk * s2 ≤ s2 := by
      nlinarith [mul_nonneg (sub_nonneg.mpr hf1) hs20]
    have h3 : 0 < 1 - r.Flood_Risk * s2 := by linarith
    exact mul_pos hpv h3
  have hmono : Stressed_Value r s2 ≤ Stressed_Value r s1 := by
    unfold Stressed_Value
    nlinarith [mul_nonneg hf0 (sub_nonneg.mpr hs12)]
  have hv1 : 0 < Stressed_Value r s1 := lt_of_lt_of_le hv2 hmono
  have hltv : Stressed_LTV r s1 ≤ Stressed_LTV r s2 := by
    unfold Stressed_LTV
    rw [div_le_div_iff hv1 hv2]
    exact mul_le_mul_of_nonneg_left hmono hla
  have hpdm : Stressed_PD r s1 ≤ Stressed_PD r s2 := by
    unfold Stressed_PD
    nlinarith [mul_nonneg hpd (mul_nonneg hh0 (sub_nonneg.mpr hs12))]
  refine ⟨hltv, hpdm, ?_⟩
  intro hc
  rw [Risk_Status_critical_iff] at hc ⊢
  rcases hc with h | h
  · exact Or.inl (lt_of_lt_of_le h hltv)
  · exact Or.inr (lt_of_lt_of_le h hpdm)

/-- Witness for C9 at the Mumbai Suburban example row, severities 0.15
and 0.50. -/
theorem stress_monotone_in_severity_witness :
    Stressed_LTV exampleRowFlood (3/20) ≤ Stressed_LTV exampleRowFlood (1/2) :=
  (stress_monotone_in_severity exampleRowFlood (3/20) (1/2)
    (by norm_num [exampleRowFlood]) (by norm_num [exampleRowFlood])
    (by norm_num [exampleRowFlood]) (by norm_num [exampleRowFlood])
    (by norm_num [exampleRowFlood]) (by norm_num [exampleRowFlood])
    (by norm_num) (by norm_num) (by norm_num)).1

lemma mergeRow_isSome_of_mem (l : LoanRow) (h : l.District ∈ districtNames) :
    (mergeRow l).isSome := by
  have hfind : (risk_data.find? (fun r => r.District = l.District)).isSome := by
    rw [List.find?_isSome]
    simp only [districtNames, List.mem_map] at h
    obtain ⟨r, hr, hrd⟩ := h
    exact ⟨r, hr, by simp [hrd]⟩
  obtain ⟨r, hr⟩ := Option.isSome_iff_exists.mp hfind
  simp [mergeRow, hr]

lemma length_filterMap_eq {α β : Type} (f : α → Option β) :
    ∀ l : List α, (∀ x ∈ l, (f x).isSome) → (l.filterMap f).length = l.length := by
  intro l
  induction l with
  | nil => intro; rfl
  | cons x xs ih =>
    intro h
    obtain ⟨b, hb⟩ := Option.isSome_iff_exists.mp (h x (List.mem_cons_self x xs))
    rw [List.filterMap_cons, hb]
    simp only [List.length_cons]
    rw [ih (fun y hy => h y (List.mem_cons_of_mem x hy))]

/-- Claim C10 (implicit): every generated loan's district is a member of
the fixed list keying the district risk table; each name appears exactly
once in that table (and the name list has no duplicates); hence the
inner join on District matches every loan exactly once and the joined
table has exactly as many rows as the loan table — 200. -/
theorem join_preserves_loan_count (g : ℕ → LoanDraw) :
    districtNames.Nodup ∧
    (∀ name ∈ districtNames,
      (risk_data.filter (fun r => r.District = name)).length = 1) ∧
    (∀ l ∈ df_loans g, l.District ∈ districtNames ∧ (mergeRow l).isSome) ∧
    (df_final g).length = (df_loans g).length ∧
    (df_final g).length = 200 := by
  have hmem : ∀ l ∈ df_loans g, l.District ∈ districtNames := by
    intro l hl
    simp only [df_loans, List.mem_map, List.mem_range] at hl
    obtain ⟨i, _, rfl⟩ := hl
    simpa [mkLoan] using pickDistrict_mem (g i).districtIdx
  have hlen : (df_final g).length = (df_loans g).length := by
    unfold df_final merge
    exact length_filterMap_eq mergeRow (df_loans g)
      (fun l hl => mergeRow_isSome_of_mem l (hmem l hl))
  refine ⟨by decide, by decide,
    fun l hl => ⟨hmem l hl, mergeRow_isSome_of_mem l (hmem l hl)⟩, hlen, ?_⟩
  rw [hlen]; simp [df_loans]

end ClimateRisk
